import Mathlib

/-!
# Formal model of `MlfEngine` (multi-lidar-fusion tracking engine)

A shallow embedding of
`modules/perception/lidar_tracking/tracker/multi_lidar_fusion/mlf_engine.cc`.

The engine's own code (`Track`, `SplitAndTransformToTrackedObjects`,
`TrackObjectMatchAndAssign`, `TrackStateFilter`, `CollectTrackedResult`,
`RemoveStaleTrackData`) is translated function by function.  External
collaborators (the matcher, the track filter, the pools, sensor-manager and
ROI geometry queries) are modelled as an abstract record of functions
(`Collab`); methods of `TrackedObject` / `MlfTrackData` whose bodies are not
part of this file's translation unit are modelled from the specification and
say so in their doc comments.

Scalars (timestamps, coordinates) are modelled as `Rat`; C++ `double`
rounding plays no role in any of the control flow verified here.
-/

/-- A 3-vector of rational scalars, standing in for `Eigen::Vector3d` /
`Eigen::Vector3f`. -/
structure Vec3 where
  x : Rat
  y : Rat
  z : Rat
deriving DecidableEq, Repr, Inhabited

/-- Componentwise negation, standing in for unary `-` on Eigen vectors. -/
def Vec3.neg (v : Vec3) : Vec3 := ⟨-v.x, -v.y, -v.z⟩

/-- Componentwise addition. -/
def Vec3.add (a b : Vec3) : Vec3 := ⟨a.x + b.x, a.y + b.y, a.z + b.z⟩

/-- The zero vector, `Eigen::Vector3f::Zero()`. -/
def Vec3.zero : Vec3 := ⟨0, 0, 0⟩

/-- A rigid transform (`Eigen::Affine3d`): only the translation part is ever
inspected by the engine, the rotation is carried as an abstract tag. -/
structure Pose where
  translation : Vec3
  rotTag : Nat
deriving DecidableEq, Repr, Inhabited

/-- `Eigen`'s `pretranslate(t)`: left-composition with a translation, so the
pose's translation becomes `t + translation`. -/
def Pose.pretranslate (p : Pose) (t : Vec3) : Pose :=
  { p with translation := Vec3.add t p.translation }

/-- Sensor metadata (`base::SensorInfo`); only the name is used. -/
structure SensorInfo where
  name : String
deriving DecidableEq, Repr, Inhabited

/-- A raw detection (`base::ObjectPtr` as consumed by the engine):
`lidar_supplement.is_background`, `latest_tracked_time`, plus an abstract
payload identity. -/
structure Detection where
  payload : Nat
  is_background : Bool
  latest_tracked_time : Rat
deriving DecidableEq, Repr, Inhabited

/-- Per-frame observation wrapper (`TrackedObject`): the detection together
with the effective pose, the session offset, the sensor identity and the
optional shape/histogram descriptor. -/
structure TrackedObject where
  obj : Detection
  sensor_to_local_pose : Pose
  global_to_local_offset : Vec3
  sensor_name : String
  histogram_bin_size : Rat
  shape_feature : Option Rat
deriving DecidableEq, Repr, Inhabited

/-- Modelled from the spec: `TrackedObject::AttachObject` builds one
observation wrapper per detection from the effective pose, the session
offset and the sensor identity (§4.1); the histogram fields start out
unset. -/
def TrackedObject.attachObject (o : Detection) (pose : Pose) (offset : Vec3)
    (sensor : SensorInfo) : TrackedObject :=
  { obj := o
    sensor_to_local_pose := pose
    global_to_local_offset := offset
    sensor_name := sensor.name
    histogram_bin_size := 0
    shape_feature := none }

/-- Modelled from the spec: `TrackedObject::ComputeShapeFeatures` computes the
shape/histogram descriptor from the previously assigned
`histogram_bin_size` (§4.1); the descriptor is abstracted as the bin size
that was in effect when it was computed. -/
def TrackedObject.computeShapeFeatures (t : TrackedObject) : TrackedObject :=
  { t with shape_feature := some t.histogram_bin_size }

/-- Persistent track state (`MlfTrackData`): identity, the pending
observation cache, `latest_visible_time_` and
`is_current_state_predicted_`. -/
structure TrackData where
  track_id : Nat
  latest_visible_time_ : Rat
  is_current_state_predicted_ : Bool
  cached_objects : List TrackedObject
deriving DecidableEq, Repr, Inhabited

/-- Modelled from the spec: `MlfTrackData::PushTrackedObjectToCache` appends
the observation to the track's pending cache (§4.2 step 4). -/
def TrackData.pushTrackedObjectToCache (o : TrackedObject) (t : TrackData) :
    TrackData :=
  { t with cached_objects := t.cached_objects ++ [o] }

/-- A published tracked object (`base::Object` in the output buffer). -/
structure PubObject where
  track_id : Nat
  position : Vec3
  velocity : Vec3
  acceleration : Vec3
deriving DecidableEq, Repr, Inhabited

/-- Road structure attached to a frame (`frame->hdmap_struct`): road
polygons, junction polygons and road boundary, each abstracted as a list of
opaque polygon identifiers (containment testing is an external
collaborator). -/
structure Roi where
  road_polygons : List Nat
  junction_polygons : List Nat
  road_boundary : List Nat
deriving DecidableEq, Repr, Inhabited

/-- One lidar frame (`LidarFrame`), with the fields the engine touches. -/
structure LidarFrame where
  timestamp : Rat
  sensor_info : SensorInfo
  segmented_objects : List Detection
  lidar2world_pose : Pose
  hdmap_struct : Option Roi
  tracked_objects : List PubObject
deriving DecidableEq, Repr, Inhabited

/-- Result of `MlfTrackObjectMatcher::Match`: assignments as
(track index, object index) pairs, plus the two unassigned index lists. -/
structure MatchResult where
  assignments : List (Nat × Nat)
  unassigned_tracks : List Nat
  unassigned_objects : List Nat
deriving DecidableEq, Repr, Inhabited

/-- The external collaborators of the engine, as pure functions: the
matcher, the track pools (indexed by acquisition order within one call),
the tracker's filter entry points, `MlfTrackData::ToObject` (returning
`none` on failure), `SensorManager::IsMainSensor` and
`algorithm::IsObjectInRoi`. -/
structure Collab where
  matchFn : List TrackedObject → List TrackData → MatchResult
  trackDataPoolGet : Nat → TrackData
  initializeTrack : TrackData → TrackedObject → TrackData
  updateTrackDataWithObject : TrackData → TrackedObject → TrackData
  updateTrackDataWithoutObject : Rat → TrackData → TrackData
  toObject : Vec3 → Rat → TrackData → Option PubObject
  objectPoolGet : Nat → PubObject
  isMainSensor : String → Bool
  isObjectInRoi : Roi → PubObject → Bool

/-- The engine's mutable members (`MlfEngine` instance state): the two
object partitions of the current frame, the two track ledgers, the session
offset, the effective pose, and the configuration loaded in `Init`. -/
structure EngineState where
  foreground_objects_ : List TrackedObject
  background_objects_ : List TrackedObject
  foreground_track_data_ : List TrackData
  background_track_data_ : List TrackData
  global_to_local_offset_ : Vec3
  sensor_to_local_pose_ : Pose
  use_histogram_for_match_ : Bool
  histogram_bin_size_ : Rat
  output_predict_objects_ : Bool
  reserved_invisible_time_ : Rat
  use_frame_timestamp_ : Bool
  set_static_outside_hdmap_ : Bool

/-- `std::vector::resize(n)` on a list: truncate to `n` or pad with the
default element up to `n`. -/
def listResize {α : Type} [Inhabited α] (l : List α) (n : Nat) : List α :=
  l.take n ++ List.replicate (n - l.length) default

/-- The per-detection body of the loop in
`MlfEngine::SplitAndTransformToTrackedObjects`: attach the detection to the
effective pose, and if it is foreground and histogram matching is enabled,
assign the configured bin size and compute the shape features. -/
def wrapDetection (st : EngineState) (sensor : SensorInfo) (o : Detection) :
    TrackedObject :=
  let t := TrackedObject.attachObject o st.sensor_to_local_pose_
    st.global_to_local_offset_ sensor
  if !o.is_background && st.use_histogram_for_match_ then
    TrackedObject.computeShapeFeatures
      { t with histogram_bin_size := st.histogram_bin_size_ }
  else t

/-- The loop of `MlfEngine::SplitAndTransformToTrackedObjects`: wrap each
detection and push it to the background partition when
`lidar_supplement.is_background` holds, to the foreground partition
otherwise.  Returns (foreground, background). -/
def splitLoop (st : EngineState) (sensor : SensorInfo) :
    List Detection → List TrackedObject × List TrackedObject
  | [] => ([], [])
  | o :: rest =>
    let t := wrapDetection st sensor o
    let p := splitLoop st sensor rest
    if o.is_background then (p.1, t :: p.2) else (t :: p.1, p.2)

/-- `MlfEngine::SplitAndTransformToTrackedObjects`: clear both partitions and
repopulate them from the frame's detections. -/
def SplitAndTransformToTrackedObjects (st : EngineState)
    (objects : List Detection) (sensor : SensorInfo) : EngineState :=
  let p := splitLoop st sensor objects
  { st with foreground_objects_ := p.1, background_objects_ := p.2 }

/-- `tracks->at(i)` update helper: apply `f` to the `n`-th element, leaving
the list unchanged when `n` is out of range. -/
def modifyAt {α : Type} : List α → Nat → (α → α) → List α
  | [], _, _ => []
  | a :: rest, 0, f => f a :: rest
  | a :: rest, n + 1, f => a :: modifyAt rest n f

/-- First loop of `MlfEngine::TrackObjectMatchAndAssign`: for each assigned
(track, object) pair, push the object onto the cache of the track at that
track index. -/
def applyAssignments (objects : List TrackedObject) :
    List (Nat × Nat) → List TrackData → List TrackData
  | [], tracks => tracks
  | p :: rest, tracks =>
    applyAssignments objects rest
      (modifyAt tracks p.1
        (TrackData.pushTrackedObjectToCache (objects.getD p.2 default)))

/-- Second loop of `MlfEngine::TrackObjectMatchAndAssign`: for each
unassigned object index, acquire a fresh `MlfTrackData` from the pool
(`k` counts acquisitions within this call), initialize it with the object
via the tracker, and collect it for appending. -/
def makeNewTracks (cb : Collab) (objects : List TrackedObject) :
    Nat → List Nat → List TrackData
  | _, [] => []
  | k, id :: rest =>
    cb.initializeTrack (cb.trackDataPoolGet k) (objects.getD id default) ::
      makeNewTracks cb objects (k + 1) rest

/-- `MlfEngine::TrackObjectMatchAndAssign`: run the matcher, push assigned
objects to their tracks' caches, and append one freshly initialized track
per unassigned object. -/
def TrackObjectMatchAndAssign (cb : Collab) (objects : List TrackedObject)
    (tracks : List TrackData) : List TrackData :=
  let m := cb.matchFn objects tracks
  applyAssignments objects m.assignments tracks ++
    makeNewTracks cb objects 0 m.unassigned_objects

/-- Per-track body of `MlfEngine::TrackStateFilter`.  Modelled from the spec
for `MlfTrackData::GetAndCleanCachedObjectsInTimeInterval`, which is not in
this translation unit: it drains the pending cache in time order (§4.2 step
6).  Each drained observation feeds `UpdateTrackDataWithObject`; with an
empty cache `UpdateTrackDataWithoutObject` runs instead. -/
def trackStateFilterOne (cb : Collab) (frame_timestamp : Rat)
    (td : TrackData) : TrackData :=
  let objs := td.cached_objects
  let td1 := { td with cached_objects := [] }
  if objs.isEmpty then
    cb.updateTrackDataWithoutObject frame_timestamp td1
  else
    objs.foldl cb.updateTrackDataWithObject td1

/-- `MlfEngine::TrackStateFilter` over one ledger partition. -/
def TrackStateFilter (cb : Collab) (tracks : List TrackData)
    (frame_timestamp : Rat) : List TrackData :=
  tracks.map (trackStateFilterOne cb frame_timestamp)

/-- Accumulator of the `collect` lambda in
`MlfEngine::CollectTrackedResult`: the output buffer and the `pos` /
`num_predict` counters. -/
structure CollectAcc where
  buf : List PubObject
  pos : Nat
  num_predict : Nat
deriving Repr

/-- The `collect` lambda of `MlfEngine::CollectTrackedResult`: skip (and
count) tracks that are predicted when predicted output is disabled;
otherwise materialize the track into the slot at `pos` via `ToObject`,
skipping the slot advance when materialization fails. -/
def collectLoop (cb : Collab) (negOffset : Vec3) (ts : Rat)
    (outputPredict : Bool) : List TrackData → CollectAcc → CollectAcc
  | [], acc => acc
  | td :: rest, acc =>
    if !outputPredict && td.is_current_state_predicted_ then
      collectLoop cb negOffset ts outputPredict rest
        { acc with num_predict := acc.num_predict + 1 }
    else
      match cb.toObject negOffset ts td with
      | none => collectLoop cb negOffset ts outputPredict rest acc
      | some ob =>
        collectLoop cb negOffset ts outputPredict rest
          { acc with buf := acc.buf.set acc.pos ob, pos := acc.pos + 1 }

/-- The accumulator state after `CollectTrackedResult` has pre-sized the
output buffer from the object pool and run `collect` over the foreground
then the background ledger. -/
def collectAccOf (cb : Collab) (st : EngineState) (frame : LidarFrame) :
    CollectAcc :=
  let num_objects :=
    st.foreground_track_data_.length + st.background_track_data_.length
  let buf := (List.range num_objects).map cb.objectPoolGet
  let acc := collectLoop cb (Vec3.neg st.global_to_local_offset_)
    frame.timestamp st.output_predict_objects_ st.foreground_track_data_
    ⟨buf, 0, 0⟩
  collectLoop cb (Vec3.neg st.global_to_local_offset_) frame.timestamp
    st.output_predict_objects_ st.background_track_data_ acc

/-- Tail of `MlfEngine::CollectTrackedResult`: when any track was skipped as
predicted, either report the inconsistency `num_predict > num_objects` and
return with the buffer as built, or resize the buffer down to
`num_objects - num_predict`. -/
def finalizeCollect (num_predict num_objects : Nat)
    (buf : List PubObject) : List PubObject :=
  if num_predict ≠ 0 then
    if num_predict > num_objects then buf
    else listResize buf (num_objects - num_predict)
  else buf

/-- `MlfEngine::CollectTrackedResult`: rebuild the frame's tracked-object
buffer from the two ledgers. -/
def CollectTrackedResult (cb : Collab) (st : EngineState)
    (frame : LidarFrame) : LidarFrame :=
  let num_objects :=
    st.foreground_track_data_.length + st.background_track_data_.length
  let acc := collectAccOf cb st frame
  { frame with
    tracked_objects := finalizeCollect acc.num_predict num_objects acc.buf }

/-- The survival test of `MlfEngine::RemoveStaleTrackData`:
`latest_visible_time_ + reserved_invisible_time_ >= timestamp`. -/
def trackAlive (rit ts : Rat) (td : TrackData) : Bool :=
  decide (ts ≤ td.latest_visible_time_ + rit)

/-- The read-cursor/write-cursor loop of `MlfEngine::RemoveStaleTrackData`:
scan with `i`, copying each surviving entry down to `pos`. Returns the
compacted vector contents and the final `pos`. -/
def removeStaleLoop (rit ts : Rat) (tracks : List TrackData) (i pos : Nat) :
    List TrackData × Nat :=
  if h : i < tracks.length then
    if trackAlive rit ts (tracks.get ⟨i, h⟩) then
      removeStaleLoop rit ts
        (if i ≠ pos then tracks.set pos (tracks.get ⟨i, h⟩) else tracks)
        (i + 1) (pos + 1)
    else
      removeStaleLoop rit ts tracks (i + 1) pos
  else (tracks, pos)
termination_by tracks.length - i
decreasing_by
· split
  · simp only [List.length_set]
    omega
  · omega
· omega

/-- `MlfEngine::RemoveStaleTrackData`: compact in place, then
`resize(pos)`. -/
def RemoveStaleTrackData (rit ts : Rat) (tracks : List TrackData) :
    List TrackData :=
  let r := removeStaleLoop rit ts tracks 0 0
  listResize r.1 r.2

/-- Steps 0–2 of `MlfEngine::Track`: optional timestamp harmonization,
offset fixation on an empty ledger, effective-pose computation, and the
split into partitioned tracked objects. -/
def trackPreprocess (st : EngineState) (frame : LidarFrame) :
    EngineState × LidarFrame :=
  let frame1 :=
    if st.use_frame_timestamp_ then
      { frame with
        segmented_objects :=
          frame.segmented_objects.map
            (fun o => { o with latest_tracked_time := frame.timestamp }) }
    else frame
  let st1 :=
    if st.foreground_track_data_.isEmpty &&
        st.background_track_data_.isEmpty then
      { st with
        global_to_local_offset_ :=
          Vec3.neg frame1.lidar2world_pose.translation }
    else st
  let st2 :=
    { st1 with
      sensor_to_local_pose_ :=
        frame1.lidar2world_pose.pretranslate st1.global_to_local_offset_ }
  (SplitAndTransformToTrackedObjects st2 frame1.segmented_objects
    frame1.sensor_info, frame1)

/-- Step 3 of `MlfEngine::Track`: association and cache update / track
creation, foreground partition first. -/
def trackAssign (cb : Collab) (st : EngineState) : EngineState :=
  let st4 :=
    { st with
      foreground_track_data_ :=
        TrackObjectMatchAndAssign cb st.foreground_objects_
          st.foreground_track_data_ }
  { st4 with
    background_track_data_ :=
      TrackObjectMatchAndAssign cb st4.background_objects_
        st4.background_track_data_ }

/-- Step 8/9 of `MlfEngine::Track`: the off-road safety policy.  If the
policy is disabled, the road structure absent, or all three of its element
lists empty, the frame is returned untouched; otherwise every published
object failing `IsObjectInRoi` gets zero velocity and acceleration. -/
def applyRoiPolicy (cb : Collab) (st : EngineState) (frame : LidarFrame) :
    LidarFrame :=
  match frame.hdmap_struct with
  | none => frame
  | some roi =>
    if !st.set_static_outside_hdmap_ ||
        (roi.road_polygons.isEmpty && roi.junction_polygons.isEmpty &&
          roi.road_boundary.isEmpty) then
      frame
    else
      { frame with
        tracked_objects :=
          frame.tracked_objects.map
            (fun ob =>
              if cb.isObjectInRoi roi ob then ob
              else { ob with velocity := Vec3.zero,
                             acceleration := Vec3.zero }) }

/-- Steps 0–6 of `MlfEngine::Track`: everything up to and including stale
eviction, before the off-road policy is applied. -/
def trackCore (cb : Collab) (st : EngineState) (frame : LidarFrame) :
    EngineState × LidarFrame :=
  let p := trackPreprocess st frame
  let st5 := trackAssign cb p.1
  let frame1 := p.2
  let is_main := cb.isMainSensor frame1.sensor_info.name
  let st6 :=
    if is_main then
      { st5 with
        foreground_track_data_ :=
          TrackStateFilter cb st5.foreground_track_data_ frame1.timestamp
        background_track_data_ :=
          TrackStateFilter cb st5.background_track_data_ frame1.timestamp }
    else st5
  let frame2 := { frame1 with tracked_objects := [] }
  let frame3 := if is_main then CollectTrackedResult cb st6 frame2 else frame2
  let st7 := { st6 with
    foreground_track_data_ := RemoveStaleTrackData
      st6.reserved_invisible_time_ frame3.timestamp
      st6.foreground_track_data_
    background_track_data_ := RemoveStaleTrackData
      st6.reserved_invisible_time_ frame3.timestamp
      st6.background_track_data_ }
  (st7, frame3)

/-- `MlfEngine::Track`: the whole per-frame pipeline.  Returns the new
engine state, the frame with its published objects, and the boolean status
(the function has a single `return true` path). -/
def Track (cb : Collab) (st : EngineState) (frame : LidarFrame) :
    EngineState × LidarFrame × Bool :=
  let r := trackCore cb st frame
  (r.1, applyRoiPolicy cb r.1 r.2, true)

/-! ## Partition completeness and shape features (split loop) -/

theorem splitLoop_eq_filter (st : EngineState) (sensor : SensorInfo)
    (objects : List Detection) :
    splitLoop st sensor objects =
      ((objects.filter (fun o => !o.is_background)).map
          (wrapDetection st sensor),
        (objects.filter (fun o => o.is_background)).map
          (wrapDetection st sensor)) := by
  induction objects with
  | nil => rfl
  | cons o rest ih =>
    simp only [splitLoop, ih, List.filter_cons]
    cases hb : o.is_background <;> simp [hb]

theorem length_filter_not_add_length_filter {α : Type} (p : α → Bool)
    (l : List α) :
    (l.filter (fun a => !p a)).length + (l.filter p).length = l.length := by
  induction l with
  | nil => rfl
  | cons a rest ih =>
    simp only [List.filter_cons]
    cases hp : p a <;> simp [List.length_cons] <;> omega

/-- C2: `SplitAndTransformToTrackedObjects` produces exactly one
`TrackedObject` per detection, the foreground partition holding exactly the
wrapped non-background detections in order, the background partition the
wrapped background detections in order, so the partition sizes sum to the
number of detections. -/
theorem splitAndTransform_partition_complete (st : EngineState)
    (objects : List Detection) (sensor : SensorInfo) :
    (SplitAndTransformToTrackedObjects st objects sensor).foreground_objects_
        = (objects.filter (fun o => !o.is_background)).map
            (wrapDetection st sensor) ∧
      (SplitAndTransformToTrackedObjects st objects
            sensor).background_objects_
        = (objects.filter (fun o => o.is_background)).map
            (wrapDetection st sensor) ∧
      (SplitAndTransformToTrackedObjects st objects
            sensor).foreground_objects_.length +
          (SplitAndTransformToTrackedObjects st objects
            sensor).background_objects_.length
        = objects.length := by
  refine ⟨?_, ?_, ?_⟩ <;>
    simp [SplitAndTransformToTrackedObjects, splitLoop_eq_filter,
      length_filter_not_add_length_filter]

/-- Witness for C2 on a concrete two-detection frame. -/
theorem splitAndTransform_partition_complete_witness :
    ∀ st : EngineState,
      (SplitAndTransformToTrackedObjects st
          [⟨0, false, 1⟩, ⟨1, true, 2⟩] ⟨"velodyne128"⟩).foreground_objects_
          = ([⟨0, false, (1 : Rat)⟩].map (wrapDetection st ⟨"velodyne128"⟩)) ∧
        (SplitAndTransformToTrackedObjects st
            [⟨0, false, 1⟩, ⟨1, true, 2⟩] ⟨"velodyne128"⟩).background_objects_
          = ([⟨1, true, (2 : Rat)⟩].map (wrapDetection st ⟨"velodyne128"⟩)) ∧
        (SplitAndTransformToTrackedObjects st
            [⟨0, false, 1⟩, ⟨1, true, 2⟩] ⟨"velodyne128"⟩).foreground_objects_.length +
            (SplitAndTransformToTrackedObjects st
              [⟨0, false, 1⟩, ⟨1, true, 2⟩] ⟨"velodyne128"⟩).background_objects_.length
          = 2 :=
  fun st => splitAndTransform_partition_complete st
    [⟨0, false, 1⟩, ⟨1, true, 2⟩] ⟨"velodyne128"⟩

/-- C9: within `SplitAndTransformToTrackedObjects`, a detection's
shape/histogram descriptor is computed — from the bin size assigned just
before — exactly when the detection is non-background and
`use_histogram_for_match_` is enabled: every background wrapper has no
descriptor, and every foreground wrapper has the descriptor computed at the
configured bin size exactly when the option is on. -/
theorem splitAndTransform_shape_features (st : EngineState)
    (objects : List Detection) (sensor : SensorInfo) :
    (∀ t ∈ (SplitAndTransformToTrackedObjects st objects
        sensor).background_objects_, t.shape_feature = none) ∧
      (∀ t ∈ (SplitAndTransformToTrackedObjects st objects
          sensor).foreground_objects_,
        t.shape_feature =
          if st.use_histogram_for_match_ then some st.histogram_bin_size_
          else none) ∧
      (∀ t ∈ (SplitAndTransformToTrackedObjects st objects
          sensor).foreground_objects_,
        st.use_histogram_for_match_ = true →
          t.histogram_bin_size = st.histogram_bin_size_) := by
  refine ⟨?_, ?_, ?_⟩ <;>
    · intro t ht
      simp only [SplitAndTransformToTrackedObjects, splitLoop_eq_filter,
        List.mem_map, List.mem_filter] at ht
      obtain ⟨o, ⟨-, hb⟩, rfl⟩ := ht
      first
      | · simp only [Bool.not_eq_eq_eq_not, Bool.not_true] at hb
          cases hu : st.use_histogram_for_match_ <;>
            simp [wrapDetection, hb, hu, TrackedObject.attachObject,
              TrackedObject.computeShapeFeatures]
      | simp [wrapDetection, hb, TrackedObject.attachObject,
          TrackedObject.computeShapeFeatures]

/-- Witness for C9 on a concrete input with the option enabled. -/
theorem splitAndTransform_shape_features_witness :
    ∀ st : EngineState,
      (∀ t ∈ (SplitAndTransformToTrackedObjects st
          [⟨0, false, 1⟩, ⟨1, true, 2⟩] ⟨"velodyne128"⟩).background_objects_,
        t.shape_feature = none) ∧
        (∀ t ∈ (SplitAndTransformToTrackedObjects st
            [⟨0, false, 1⟩, ⟨1, true, 2⟩] ⟨"velodyne128"⟩).foreground_objects_,
          t.shape_feature =
            if st.use_histogram_for_match_ then some st.histogram_bin_size_
            else none) ∧
        (∀ t ∈ (SplitAndTransformToTrackedObjects st
            [⟨0, false, 1⟩, ⟨1, true, 2⟩] ⟨"velodyne128"⟩).foreground_objects_,
          st.use_histogram_for_match_ = true →
            t.histogram_bin_size = st.histogram_bin_size_) :=
  fun st => splitAndTransform_shape_features st
    [⟨0, false, 1⟩, ⟨1, true, 2⟩] ⟨"velodyne128"⟩

/-! ## Stale-track eviction -/

theorem take_set_of_le {α : Type} (l : List α) (m n : Nat) (a : α)
    (h : n ≤ m) : (l.set m a).take n = l.take n := by
  rw [List.set_take]
  exact List.set_eq_of_length_le
    (le_trans (List.length_take_le n l) h)

theorem take_succ_set {α : Type} (l : List α) (p : Nat) (a : α)
    (h : p < l.length) : (l.set p a).take (p + 1) = l.take p ++ [a] := by
  have hlen : p < (l.set p a).length := by simpa using h
  have h1 := List.take_concat_get (l.set p a) p hlen
  rw [List.concat_eq_append] at h1
  rw [← h1, take_set_of_le l p p a (le_refl p), List.getElem_set_self]

theorem take_succ_self {α : Type} (l : List α) (p : Nat) (h : p < l.length) :
    l.take (p + 1) = l.take p ++ [l[p]] := by
  have h1 := List.take_concat_get l p h
  rw [List.concat_eq_append] at h1
  exact h1.symm

theorem removeStaleLoop_spec (rit ts : Rat) :
    ∀ (n : Nat) (tracks : List TrackData) (i pos : Nat),
      tracks.length - i = n → pos ≤ i →
      (removeStaleLoop rit ts tracks i pos).2 =
          pos + ((tracks.drop i).filter (trackAlive rit ts)).length ∧
        (removeStaleLoop rit ts tracks i pos).1.take
            (removeStaleLoop rit ts tracks i pos).2 =
          tracks.take pos ++ (tracks.drop i).filter (trackAlive rit ts) ∧
        (removeStaleLoop rit ts tracks i pos).1.length = tracks.length := by
  intro n
  induction n with
  | zero =>
    intro tracks i pos hn _hpos
    have hge : tracks.length ≤ i := by omega
    rw [removeStaleLoop]
    rw [dif_neg (by omega)]
    simp [List.drop_of_length_le hge]
  | succ m ih =>
    intro tracks i pos hn hpos
    have hi : i < tracks.length := by omega
    have hdrop : tracks.drop i = tracks[i] :: tracks.drop (i + 1) :=
      List.drop_eq_getElem_cons hi
    rw [removeStaleLoop, dif_pos hi]
    have hget : tracks.get ⟨i, hi⟩ = tracks[i] := rfl
    by_cases ha : trackAlive rit ts (tracks.get ⟨i, hi⟩)
    · rw [if_pos ha]
      set tracks1 :=
        if i ≠ pos then tracks.set pos (tracks.get ⟨i, hi⟩) else tracks
        with htracks1
      have hlen1 : tracks1.length = tracks.length := by
        rw [htracks1]; split <;> simp
      have hdrop1 : tracks1.drop (i + 1) = tracks.drop (i + 1) := by
        rw [htracks1]; split
        · rw [List.drop_set]
          rw [if_pos (by omega)]
        · rfl
      have htake1 : tracks1.take (pos + 1) = tracks.take pos ++ [tracks[i]] := by
        rw [htracks1]; split
        · exact take_succ_set tracks pos (tracks.get ⟨i, hi⟩) (by omega)
        · have hip : i = pos := by omega
          subst hip
          exact take_succ_self tracks i hi
      obtain ⟨h1, h2, h3⟩ := ih tracks1 (i + 1) (pos + 1) (by omega) (by omega)
      rw [hdrop1] at h1 h2
      rw [hget] at ha
      refine ⟨?_, ?_, by rw [h3, hlen1]⟩
      · rw [h1, hdrop, List.filter_cons, if_pos ha]
        simp only [List.length_cons]
        omega
      · rw [h2, htake1, hdrop, List.filter_cons, if_pos ha]
        simp [List.append_assoc]
    · rw [if_neg ha]
      rw [hget] at ha
      obtain ⟨h1, h2, h3⟩ := ih tracks (i + 1) pos (by omega) (by omega)
      refine ⟨?_, ?_, h3⟩
      · rw [h1, hdrop, List.filter_cons, if_neg ha]
      · rw [h2, hdrop, List.filter_cons, if_neg ha]

/-- C3: `RemoveStaleTrackData` keeps exactly the tracks satisfying
`latest_visible_time_ + reserved_invisible_time_ >= timestamp`, in their
original relative order, resized to the survivor count: it is extensionally
the stable filter by `trackAlive`. -/
theorem removeStaleTrackData_eq_filter (rit ts : Rat)
    (tracks : List TrackData) :
    RemoveStaleTrackData rit ts tracks =
      tracks.filter (trackAlive rit ts) := by
  obtain ⟨h1, h2, h3⟩ :=
    removeStaleLoop_spec rit ts tracks.length tracks 0 0 (by omega)
      (le_refl 0)
  have hle : (removeStaleLoop rit ts tracks 0 0).2 ≤
      (removeStaleLoop rit ts tracks 0 0).1.length := by
    rw [h3, h1]
    have := List.length_filter_le (trackAlive rit ts) tracks
    simpa using this
  simp only [RemoveStaleTrackData, listResize]
  rw [Nat.sub_eq_zero_of_le hle, List.replicate_zero, List.append_nil]
  simpa using h2

/-- Witness for C3: a two-track ledger where exactly the second track is
stale. -/
theorem removeStaleTrackData_eq_filter_witness :
    RemoveStaleTrackData 5 100 [⟨1, 98, false, []⟩, ⟨2, 90, false, []⟩] =
      [⟨1, 98, false, []⟩] := by
  have h := removeStaleTrackData_eq_filter 5 100
    [⟨1, 98, false, []⟩, ⟨2, 90, false, []⟩]
  rw [h, List.filter_cons, List.filter_cons, List.filter_nil]
  norm_num [trackAlive]

/-! ## Session-offset fixation -/

/-- C1: one call to `Track` sets the session offset
`global_to_local_offset_` to the negated pose translation exactly when both
track ledgers were empty on entry, and leaves it unchanged otherwise,
whatever the frame's pose. -/
theorem track_offset_fixation (cb : Collab) (st : EngineState)
    (frame : LidarFrame) :
    (Track cb st frame).1.global_to_local_offset_ =
      if st.foreground_track_data_.isEmpty &&
          st.background_track_data_.isEmpty then
        Vec3.neg frame.lidar2world_pose.translation
      else st.global_to_local_offset_ := by
  simp only [Track, trackCore, trackAssign, trackPreprocess,
    SplitAndTransformToTrackedObjects,
    apply_ite EngineState.global_to_local_offset_,
    apply_ite LidarFrame.lidar2world_pose, ite_self]

/-- A concrete collaborator bundle used by witnesses: one assignment
(track 0 ← object 0), object 1 unassigned. -/
def collabW : Collab where
  matchFn := fun _objs _tracks =>
    { assignments := [(0, 0)], unassigned_tracks := [],
      unassigned_objects := [1] }
  trackDataPoolGet := fun k =>
    { track_id := 100 + k, latest_visible_time_ := 0,
      is_current_state_predicted_ := false, cached_objects := [] }
  initializeTrack := fun td o =>
    { td with latest_visible_time_ := o.obj.latest_tracked_time }
  updateTrackDataWithObject := fun td o =>
    { td with latest_visible_time_ := o.obj.latest_tracked_time,
              is_current_state_predicted_ := false }
  updateTrackDataWithoutObject := fun _ts td =>
    { td with is_current_state_predicted_ := true }
  toObject := fun _neg _ts td =>
    some { track_id := td.track_id, position := Vec3.zero,
           velocity := ⟨1, 0, 0⟩, acceleration := Vec3.zero }
  objectPoolGet := fun k =>
    { track_id := 1000 + k, position := Vec3.zero, velocity := Vec3.zero,
      acceleration := Vec3.zero }
  isMainSensor := fun sensorName => sensorName == "main"
  isObjectInRoi := fun _roi ob => ob.track_id % 2 == 0

/-- A concrete engine state used by witnesses: empty ledgers, histogram
matching on, predicted output off. -/
def stW : EngineState where
  foreground_objects_ := []
  background_objects_ := []
  foreground_track_data_ := []
  background_track_data_ := []
  global_to_local_offset_ := Vec3.zero
  sensor_to_local_pose_ := ⟨Vec3.zero, 0⟩
  use_histogram_for_match_ := true
  histogram_bin_size_ := 10
  output_predict_objects_ := false
  reserved_invisible_time_ := 5
  use_frame_timestamp_ := true
  set_static_outside_hdmap_ := true

/-- A concrete main-sensor frame used by witnesses. -/
def frameW : LidarFrame where
  timestamp := 100
  sensor_info := ⟨"main"⟩
  segmented_objects := [⟨0, false, 1⟩, ⟨1, true, 2⟩]
  lidar2world_pose := ⟨⟨1, 2, 3⟩, 0⟩
  hdmap_struct := some ⟨[7], [], []⟩
  tracked_objects := []

/-- Witness for C1: on `frameW` with empty ledgers in `stW`, the offset
after `Track` is the negated pose translation. -/
theorem track_offset_fixation_witness :
    (Track collabW stW frameW).1.global_to_local_offset_ =
      if stW.foreground_track_data_.isEmpty &&
          stW.background_track_data_.isEmpty then
        Vec3.neg frameW.lidar2world_pose.translation
      else stW.global_to_local_offset_ :=
  track_offset_fixation collabW stW frameW

/-! ## Association and cache update -/

theorem modifyAt_length {α : Type} (l : List α) (n : Nat) (f : α → α) :
    (modifyAt l n f).length = l.length := by
  induction l generalizing n with
  | nil => rfl
  | cons a rest ih =>
    cases n with
    | zero => rfl
    | succ m => simp [modifyAt, ih]

theorem modifyAt_getD_eq {α : Type} [Inhabited α] (l : List α) (n : Nat)
    (f : α → α) (h : n < l.length) :
    (modifyAt l n f).getD n default = f (l.getD n default) := by
  induction l generalizing n with
  | nil => simp at h
  | cons a rest ih =>
    cases n with
    | zero => rfl
    | succ m =>
      simp only [modifyAt, List.getD_cons_succ]
      exact ih m (by simpa using h)

theorem modifyAt_getD_ne {α : Type} [Inhabited α] (l : List α) (n m : Nat)
    (f : α → α) (h : n ≠ m) :
    (modifyAt l n f).getD m default = l.getD m default := by
  induction l generalizing n m with
  | nil => cases n <;> rfl
  | cons a rest ih =>
    cases n with
    | zero =>
      cases m with
      | zero => exact absurd rfl h
      | succ k => rfl
    | succ n1 =>
      cases m with
      | zero => rfl
      | succ k =>
        simp only [modifyAt, List.getD_cons_succ]
        exact ih n1 k (by omega)

/-- Sequential cache pushes: fold the push over a list of observations. -/
def pushAll (t : TrackData) (os : List TrackedObject) : TrackData :=
  os.foldl (fun acc o => TrackData.pushTrackedObjectToCache o acc) t

theorem applyAssignments_length (objects : List TrackedObject)
    (ps : List (Nat × Nat)) (tracks : List TrackData) :
    (applyAssignments objects ps tracks).length = tracks.length := by
  induction ps generalizing tracks with
  | nil => rfl
  | cons p rest ih =>
    simp [applyAssignments, ih, modifyAt_length]

theorem applyAssignments_getD (objects : List TrackedObject)
    (ps : List (Nat × Nat)) (tracks : List TrackData) (i : Nat)
    (h : i < tracks.length) :
    (applyAssignments objects ps tracks).getD i default =
      pushAll (tracks.getD i default)
        ((ps.filter (fun p => p.1 == i)).map
          (fun p => objects.getD p.2 default)) := by
  induction ps generalizing tracks with
  | nil => simp [applyAssignments, pushAll]
  | cons p rest ih =>
    simp only [applyAssignments, List.filter_cons]
    by_cases hpi : p.1 = i
    · rw [if_pos (by simpa using hpi)]
      have hlen : i < (modifyAt tracks p.1
          (TrackData.pushTrackedObjectToCache
            (objects.getD p.2 default))).length := by
        rw [modifyAt_length]; exact h
      rw [ih _ hlen]
      subst hpi
      rw [modifyAt_getD_eq tracks p.1 _ h]
      simp [pushAll]
    · rw [if_neg (by simpa using hpi)]
      have hlen : i < (modifyAt tracks p.1
          (TrackData.pushTrackedObjectToCache
            (objects.getD p.2 default))).length := by
        rw [modifyAt_length]; exact h
      rw [ih _ hlen, modifyAt_getD_ne tracks p.1 i _ hpi]

theorem makeNewTracks_length (cb : Collab) (objects : List TrackedObject)
    (k : Nat) (ids : List Nat) :
    (makeNewTracks cb objects k ids).length = ids.length := by
  induction ids generalizing k with
  | nil => rfl
  | cons id rest ih => simp [makeNewTracks, ih]

theorem makeNewTracks_getD (cb : Collab) (objects : List TrackedObject)
    (ids : List Nat) (k j : Nat) (h : j < ids.length) :
    (makeNewTracks cb objects k ids).getD j default =
      cb.initializeTrack (cb.trackDataPoolGet (k + j))
        (objects.getD (ids.getD j 0) default) := by
  induction ids generalizing k j with
  | nil => simp at h
  | cons id rest ih =>
    cases j with
    | zero => rfl
    | succ j1 =>
      simp only [makeNewTracks, List.getD_cons_succ]
      rw [ih (k + 1) j1 (by simpa using h)]
      congr 2
      omega

/-- C7: `TrackObjectMatchAndAssign` leaves every pre-existing track at its
original index, only extending its pending cache with exactly its assigned
objects in assignment order; appends one track per unassigned object index,
freshly acquired (in acquisition order) and initialized with that object;
and therefore grows the ledger by exactly the number of unassigned
objects. -/
theorem trackObjectMatchAndAssign_spec (cb : Collab)
    (objects : List TrackedObject) (tracks : List TrackData) :
    (TrackObjectMatchAndAssign cb objects tracks).length =
        tracks.length + (cb.matchFn objects tracks).unassigned_objects.length ∧
      (∀ i, i < tracks.length →
        (TrackObjectMatchAndAssign cb objects tracks).getD i default =
          pushAll (tracks.getD i default)
            (((cb.matchFn objects tracks).assignments.filter
                (fun p => p.1 == i)).map
              (fun p => objects.getD p.2 default))) ∧
      ∀ k, k < (cb.matchFn objects tracks).unassigned_objects.length →
        (TrackObjectMatchAndAssign cb objects tracks).getD
            (tracks.length + k) default =
          cb.initializeTrack (cb.trackDataPoolGet k)
            (objects.getD
              ((cb.matchFn objects tracks).unassigned_objects.getD k 0)
              default) := by
  refine ⟨?_, ?_, ?_⟩
  · simp [TrackObjectMatchAndAssign, applyAssignments_length,
      makeNewTracks_length]
  · intro i hi
    simp only [TrackObjectMatchAndAssign]
    rw [List.getD_append _ _ _ _
      (by rw [applyAssignments_length]; exact hi)]
    exact applyAssignments_getD objects _ tracks i hi
  · intro k hk
    simp only [TrackObjectMatchAndAssign]
    have hlen : (applyAssignments objects
        (cb.matchFn objects tracks).assignments tracks).length =
          tracks.length :=
      applyAssignments_length objects _ tracks
    rw [List.getD_append_right _ _ _ _ (by omega)]
    rw [hlen, Nat.add_sub_cancel_left]
    have h0 := makeNewTracks_getD cb objects
      (cb.matchFn objects tracks).unassigned_objects 0 k hk
    simpa using h0

/-- Witness for C7: two objects, one pre-existing track, matcher `collabW`
assigning object 0 to track 0 and leaving object 1 unassigned. -/
theorem trackObjectMatchAndAssign_spec_witness :
    ∀ o0 o1 : TrackedObject, ∀ t0 : TrackData,
      (TrackObjectMatchAndAssign collabW [o0, o1] [t0]).length = 2 ∧
        (TrackObjectMatchAndAssign collabW [o0, o1] [t0]).getD 0 default =
          pushAll t0 [o0] ∧
        (TrackObjectMatchAndAssign collabW [o0, o1] [t0]).getD 1 default =
          collabW.initializeTrack (collabW.trackDataPoolGet 0) o1 := by
  intro o0 o1 t0
  obtain ⟨h1, h2, h3⟩ := trackObjectMatchAndAssign_spec collabW [o0, o1] [t0]
  refine ⟨by simpa using h1, ?_, ?_⟩
  · have h := h2 0 (by simp)
    simpa [collabW, pushAll] using h
  · have h := h3 0 (by simp [collabW])
    simpa [collabW] using h

/-! ## Result collection -/

theorem collectLoop_buf_length (cb : Collab) (negOffset : Vec3) (ts : Rat)
    (op : Bool) (l : List TrackData) (acc : CollectAcc) :
    (collectLoop cb negOffset ts op l acc).buf.length = acc.buf.length := by
  induction l generalizing acc with
  | nil => rfl
  | cons td rest ih =>
    simp only [collectLoop]
    split
    · rw [ih]
    · split
      · rw [ih]
      · rw [ih]
        simp

theorem collectLoop_num_predict_le (cb : Collab) (negOffset : Vec3)
    (ts : Rat) (op : Bool) (l : List TrackData) (acc : CollectAcc) :
    (collectLoop cb negOffset ts op l acc).num_predict ≤
      acc.num_predict + l.length := by
  induction l generalizing acc with
  | nil => simp [collectLoop]
  | cons td rest ih =>
    simp only [collectLoop]
    split
    · have h := ih { acc with num_predict := acc.num_predict + 1 }
      simp only [List.length_cons] at h ⊢
      omega
    · split
      · have h := ih acc
        simp only [List.length_cons]
        omega
      · rename_i ob heq
        have h := ih { acc with
          buf := acc.buf.set acc.pos ob, pos := acc.pos + 1 }
        simp only [List.length_cons] at h ⊢
        omega

theorem collectLoop_num_predict_count (cb : Collab) (negOffset : Vec3)
    (ts : Rat) (l : List TrackData) (acc : CollectAcc) :
    (collectLoop cb negOffset ts false l acc).num_predict =
      acc.num_predict +
        l.countP (fun td => td.is_current_state_predicted_) := by
  induction l generalizing acc with
  | nil => simp [collectLoop]
  | cons td rest ih =>
    simp only [collectLoop, List.countP_cons]
    by_cases hp : td.is_current_state_predicted_
    · rw [if_pos (by simp [hp])]
      rw [ih]
      simp [hp]
      omega
    · rw [if_neg (by simp [hp])]
      have hp' : (td.is_current_state_predicted_ = true) = False := by
        simp [hp]
      split
      · rw [ih]
        simp [hp']
      · rw [ih]
        simp [hp']

theorem collectLoop_mem (cb : Collab) (negOffset : Vec3) (ts : Rat)
    (l : List TrackData) (acc : CollectAcc) (ob : PubObject)
    (hmem : ob ∈ (collectLoop cb negOffset ts false l acc).buf) :
    ob ∈ acc.buf ∨
      ∃ td ∈ l, td.is_current_state_predicted_ = false ∧
        cb.toObject negOffset ts td = some ob := by
  induction l generalizing acc with
  | nil => exact Or.inl hmem
  | cons td rest ih =>
    simp only [collectLoop] at hmem
    by_cases hp : td.is_current_state_predicted_
    · rw [if_pos (by simp [hp])] at hmem
      rcases ih _ hmem with h | ⟨td1, h1, h2, h3⟩
      · exact Or.inl h
      · exact Or.inr ⟨td1, List.mem_cons_of_mem td h1, h2, h3⟩
    · rw [if_neg (by simp [hp])] at hmem
      rcases hto : cb.toObject negOffset ts td with _ | ob1
      · rw [hto] at hmem
        rcases ih _ hmem with h | ⟨td1, h1, h2, h3⟩
        · exact Or.inl h
        · exact Or.inr ⟨td1, List.mem_cons_of_mem td h1, h2, h3⟩
      · rw [hto] at hmem
        rcases ih _ hmem with h | ⟨td1, h1, h2, h3⟩
        · rcases List.mem_or_eq_of_mem_set h with h' | rfl
          · exact Or.inl h'
          · exact Or.inr ⟨td, List.mem_cons_self td rest,
              by simp [hp], hto⟩
        · exact Or.inr ⟨td1, List.mem_cons_of_mem td h1, h2, h3⟩

/-- C10: across both partitions, the predicted-skip counter of
`CollectTrackedResult` never exceeds the total live-track count (each track
contributes at most one increment), so the `num_predict > num_objects`
error branch cannot fire from `collectAccOf` and the shrink amount
`num_objects - num_predict` cannot underflow: the collection result is
always the (possibly un-)shrunk buffer, never the early-return branch. -/
theorem collect_num_predict_le (cb : Collab) (st : EngineState)
    (frame : LidarFrame) :
    (collectAccOf cb st frame).num_predict ≤
        st.foreground_track_data_.length +
          st.background_track_data_.length ∧
      (CollectTrackedResult cb st frame).tracked_objects =
        (if (collectAccOf cb st frame).num_predict ≠ 0 then
          listResize (collectAccOf cb st frame).buf
            (st.foreground_track_data_.length +
              st.background_track_data_.length -
              (collectAccOf cb st frame).num_predict)
        else (collectAccOf cb st frame).buf) := by
  have hle : (collectAccOf cb st frame).num_predict ≤
      st.foreground_track_data_.length + st.background_track_data_.length := by
    simp only [collectAccOf]
    have h1 := collectLoop_num_predict_le cb
      (Vec3.neg st.global_to_local_offset_) frame.timestamp
      st.output_predict_objects_ st.background_track_data_
      (collectLoop cb (Vec3.neg st.global_to_local_offset_) frame.timestamp
        st.output_predict_objects_ st.foreground_track_data_
        ⟨(List.range (st.foreground_track_data_.length +
            st.background_track_data_.length)).map cb.objectPoolGet, 0, 0⟩)
    have h2 := collectLoop_num_predict_le cb
      (Vec3.neg st.global_to_local_offset_) frame.timestamp
      st.output_predict_objects_ st.foreground_track_data_
      ⟨(List.range (st.foreground_track_data_.length +
          st.background_track_data_.length)).map cb.objectPoolGet, 0, 0⟩
    simp only at h1 h2
    omega
  refine ⟨hle, ?_⟩
  simp only [CollectTrackedResult, finalizeCollect]
  by_cases hz : (collectAccOf cb st frame).num_predict ≠ 0
  · rw [if_pos hz, if_pos hz, if_neg (by omega)]
  · rw [if_neg hz, if_neg hz]

/-- Witness for C10 at the concrete fixture state and frame. -/
theorem collect_num_predict_le_witness :
    (collectAccOf collabW stW frameW).num_predict ≤
        stW.foreground_track_data_.length +
          stW.background_track_data_.length ∧
      (CollectTrackedResult collabW stW frameW).tracked_objects =
        (if (collectAccOf collabW stW frameW).num_predict ≠ 0 then
          listResize (collectAccOf collabW stW frameW).buf
            (stW.foreground_track_data_.length +
              stW.background_track_data_.length -
              (collectAccOf collabW stW frameW).num_predict)
        else (collectAccOf collabW stW frameW).buf) :=
  collect_num_predict_le collabW stW frameW

theorem listResize_length {α : Type} [Inhabited α] (l : List α) (n : Nat) :
    (listResize l n).length = n := by
  simp only [listResize, List.length_append, List.length_take,
    List.length_replicate]
  omega

theorem listResize_eq_take {α : Type} [Inhabited α] (l : List α) (n : Nat)
    (h : n ≤ l.length) : listResize l n = l.take n := by
  simp [listResize, Nat.sub_eq_zero_of_le h]

/-- C4: with predicted output disabled, `CollectTrackedResult` publishes
exactly `totalTracks - predictedCount` objects, and every published slot is
either a never-written pool slot or the materialization (via `ToObject`) of
a non-predicted track: no track flagged predicted is materialized into the
output. -/
theorem collectTrackedResult_predicted_suppression (cb : Collab)
    (st : EngineState) (frame : LidarFrame)
    (h : st.output_predict_objects_ = false) :
    (CollectTrackedResult cb st frame).tracked_objects.length =
        st.foreground_track_data_.length +
            st.background_track_data_.length -
          (st.foreground_track_data_.countP
              (fun td => td.is_current_state_predicted_) +
            st.background_track_data_.countP
              (fun td => td.is_current_state_predicted_)) ∧
      ∀ ob ∈ (CollectTrackedResult cb st frame).tracked_objects,
        ob ∈ (List.range (st.foreground_track_data_.length +
            st.background_track_data_.length)).map cb.objectPoolGet ∨
          ∃ td, (td ∈ st.foreground_track_data_ ∨
              td ∈ st.background_track_data_) ∧
            td.is_current_state_predicted_ = false ∧
            cb.toObject (Vec3.neg st.global_to_local_offset_)
              frame.timestamp td = some ob := by
  have hnp : (collectAccOf cb st frame).num_predict =
      st.foreground_track_data_.countP
          (fun td => td.is_current_state_predicted_) +
        st.background_track_data_.countP
          (fun td => td.is_current_state_predicted_) := by
    simp only [collectAccOf, h]
    rw [collectLoop_num_predict_count, collectLoop_num_predict_count]
    simp
  have hbuflen : (collectAccOf cb st frame).buf.length =
      st.foreground_track_data_.length +
        st.background_track_data_.length := by
    simp only [collectAccOf]
    rw [collectLoop_buf_length, collectLoop_buf_length]
    simp
  have hcount : st.foreground_track_data_.countP
        (fun td => td.is_current_state_predicted_) +
      st.background_track_data_.countP
        (fun td => td.is_current_state_predicted_) ≤
      st.foreground_track_data_.length +
        st.background_track_data_.length := by
    have h1 := List.countP_le_length
      (p := fun td => td.is_current_state_predicted_)
      (l := st.foreground_track_data_)
    have h2 := List.countP_le_length
      (p := fun td => td.is_current_state_predicted_)
      (l := st.background_track_data_)
    omega
  constructor
  · simp only [CollectTrackedResult, finalizeCollect]
    by_cases hz : (collectAccOf cb st frame).num_predict ≠ 0
    · rw [if_pos hz, if_neg (by omega)]
      rw [listResize_length, hnp]
    · rw [if_neg hz]
      push_neg at hz
      rw [hbuflen]
      omega
  · intro ob hob
    have hob1 : ob ∈ (collectAccOf cb st frame).buf := by
      simp only [CollectTrackedResult, finalizeCollect] at hob
      split at hob
      · split at hob
        · exact hob
        · rw [listResize_eq_take _ _ (by omega)] at hob
          exact List.mem_of_mem_take hob
      · exact hob
    rw [show collectAccOf cb st frame =
        collectLoop cb (Vec3.neg st.global_to_local_offset_)
          frame.timestamp false st.background_track_data_
          (collectLoop cb (Vec3.neg st.global_to_local_offset_)
            frame.timestamp false st.foreground_track_data_
            ⟨(List.range (st.foreground_track_data_.length +
                st.background_track_data_.length)).map cb.objectPoolGet,
              0, 0⟩) by simp only [collectAccOf, h]] at hob1
    rcases collectLoop_mem _ _ _ _ _ _ hob1 with hb | ⟨td, htd, hp, hto⟩
    · rcases collectLoop_mem _ _ _ _ _ _ hb with hb1 | ⟨td, htd, hp, hto⟩
      · exact Or.inl hb1
      · exact Or.inr ⟨td, Or.inl htd, hp, hto⟩
    · exact Or.inr ⟨td, Or.inr htd, hp, hto⟩

/-- A two-track foreground ledger for the C4 witness: track 2 is in the
predicted state. -/
def stC4 : EngineState :=
  { stW with
    foreground_track_data_ :=
      [⟨1, 99, false, []⟩, ⟨2, 99, true, []⟩] }

/-- Witness for C4: of two foreground tracks with one predicted, exactly
one object is published and it comes from the non-predicted track. -/
theorem collectTrackedResult_predicted_suppression_witness :
    (CollectTrackedResult collabW stC4 frameW).tracked_objects.length =
        stC4.foreground_track_data_.length +
            stC4.background_track_data_.length -
          (stC4.foreground_track_data_.countP
              (fun td => td.is_current_state_predicted_) +
            stC4.background_track_data_.countP
              (fun td => td.is_current_state_predicted_)) ∧
      ∀ ob ∈ (CollectTrackedResult collabW stC4 frameW).tracked_objects,
        ob ∈ (List.range (stC4.foreground_track_data_.length +
            stC4.background_track_data_.length)).map collabW.objectPoolGet ∨
          ∃ td, (td ∈ stC4.foreground_track_data_ ∨
              td ∈ stC4.background_track_data_) ∧
            td.is_current_state_predicted_ = false ∧
            collabW.toObject (Vec3.neg stC4.global_to_local_offset_)
              frameW.timestamp td = some ob :=
  collectTrackedResult_predicted_suppression collabW stC4 frameW rfl

/-- C8: on the inconsistent input `num_predict > num_objects`, the tail of
`CollectTrackedResult` reports the error and returns with the output buffer
exactly as already built (no resize, no further mutation), and the `Track`
pipeline as a whole still reports success. -/
theorem collect_inconsistency_early_return (np no : Nat)
    (buf : List PubObject) (cb : Collab) (st : EngineState)
    (frame : LidarFrame) (h : np > no) :
    finalizeCollect np no buf = buf ∧ (Track cb st frame).2.2 = true := by
  refine ⟨?_, rfl⟩
  unfold finalizeCollect
  rw [if_pos (by omega), if_pos h]

/-- Witness for C8 at `num_predict = 2 > 1 = num_objects`. -/
theorem collect_inconsistency_early_return_witness :
    finalizeCollect 2 1 [] = [] ∧ (Track collabW stW frameW).2.2 = true :=
  collect_inconsistency_early_return 2 1 [] collabW stW frameW (by decide)

/-! ## Frame and configuration propagation through the pipeline -/

theorem trackPreprocess_frame_sensor_info (st : EngineState)
    (frame : LidarFrame) :
    (trackPreprocess st frame).2.sensor_info = frame.sensor_info := by
  simp only [trackPreprocess, apply_ite LidarFrame.sensor_info, ite_self]

theorem trackPreprocess_frame_timestamp (st : EngineState)
    (frame : LidarFrame) :
    (trackPreprocess st frame).2.timestamp = frame.timestamp := by
  simp only [trackPreprocess, apply_ite LidarFrame.timestamp, ite_self]

theorem trackPreprocess_frame_hdmap (st : EngineState)
    (frame : LidarFrame) :
    (trackPreprocess st frame).2.hdmap_struct = frame.hdmap_struct := by
  simp only [trackPreprocess, apply_ite LidarFrame.hdmap_struct, ite_self]

theorem trackPreprocess_rit (st : EngineState) (frame : LidarFrame) :
    (trackPreprocess st frame).1.reserved_invisible_time_ =
      st.reserved_invisible_time_ := by
  simp only [trackPreprocess, SplitAndTransformToTrackedObjects,
    apply_ite EngineState.reserved_invisible_time_, ite_self]

theorem trackPreprocess_set_static (st : EngineState) (frame : LidarFrame) :
    (trackPreprocess st frame).1.set_static_outside_hdmap_ =
      st.set_static_outside_hdmap_ := by
  simp only [trackPreprocess, SplitAndTransformToTrackedObjects,
    apply_ite EngineState.set_static_outside_hdmap_, ite_self]

theorem trackAssign_rit (cb : Collab) (st : EngineState) :
    (trackAssign cb st).reserved_invisible_time_ =
      st.reserved_invisible_time_ := by
  simp [trackAssign]

theorem trackAssign_set_static (cb : Collab) (st : EngineState) :
    (trackAssign cb st).set_static_outside_hdmap_ =
      st.set_static_outside_hdmap_ := by
  simp [trackAssign]

theorem trackCore_frame_hdmap (cb : Collab) (st : EngineState)
    (frame : LidarFrame) :
    (trackCore cb st frame).2.hdmap_struct = frame.hdmap_struct := by
  simp only [trackCore, CollectTrackedResult,
    apply_ite LidarFrame.hdmap_struct, ite_self,
    trackPreprocess_frame_hdmap]

theorem trackCore_set_static (cb : Collab) (st : EngineState)
    (frame : LidarFrame) :
    (trackCore cb st frame).1.set_static_outside_hdmap_ =
      st.set_static_outside_hdmap_ := by
  simp only [trackCore, apply_ite EngineState.set_static_outside_hdmap_,
    ite_self, trackAssign_set_static, trackPreprocess_set_static]

/-! ## Primary-sensor gating -/

/-- C5: on a frame from a non-primary sensor, `Track` runs no per-track
filtering and no result collection: the final ledgers are exactly the
association-updated ledgers (pending caches intact) after stale eviction,
and the frame's published tracked-objects sequence is empty on return. -/
theorem track_non_main_sensor (cb : Collab) (st : EngineState)
    (frame : LidarFrame)
    (h : cb.isMainSensor frame.sensor_info.name = false) :
    (Track cb st frame).2.1.tracked_objects = [] ∧
      (Track cb st frame).1.foreground_track_data_ =
        RemoveStaleTrackData st.reserved_invisible_time_ frame.timestamp
          (trackAssign cb
            (trackPreprocess st frame).1).foreground_track_data_ ∧
      (Track cb st frame).1.background_track_data_ =
        RemoveStaleTrackData st.reserved_invisible_time_ frame.timestamp
          (trackAssign cb
            (trackPreprocess st frame).1).background_track_data_ := by
  have hmain : cb.isMainSensor (trackPreprocess st frame).2.sensor_info.name
      = false := by
    rw [trackPreprocess_frame_sensor_info]; exact h
  refine ⟨?_, ?_, ?_⟩
  · simp only [Track, trackCore, hmain, Bool.false_eq_true, if_false,
      applyRoiPolicy]
    cases hh : (trackPreprocess st frame).2.hdmap_struct with
    | none => simp
    | some roi =>
      simp only
      split <;> simp
  · simp only [Track, trackCore, hmain, Bool.false_eq_true, if_false]
    rw [trackAssign_rit, trackPreprocess_rit, trackPreprocess_frame_timestamp]
  · simp only [Track, trackCore, hmain, Bool.false_eq_true, if_false]
    rw [trackAssign_rit, trackPreprocess_rit, trackPreprocess_frame_timestamp]

/-- A non-primary-sensor frame for the C5 witness. -/
def frameAux : LidarFrame := { frameW with sensor_info := ⟨"aux"⟩ }

/-- Witness for C5 on the concrete non-primary frame `frameAux`. -/
theorem track_non_main_sensor_witness :
    (Track collabW stW frameAux).2.1.tracked_objects = [] ∧
      (Track collabW stW frameAux).1.foreground_track_data_ =
        RemoveStaleTrackData stW.reserved_invisible_time_ frameAux.timestamp
          (trackAssign collabW
            (trackPreprocess stW frameAux).1).foreground_track_data_ ∧
      (Track collabW stW frameAux).1.background_track_data_ =
        RemoveStaleTrackData stW.reserved_invisible_time_ frameAux.timestamp
          (trackAssign collabW
            (trackPreprocess stW frameAux).1).background_track_data_ :=
  track_non_main_sensor collabW stW frameAux (by decide)

/-! ## Off-road safety policy -/

/-- C6: the published objects of `Track` are those collected before the
off-road policy, transformed as follows: when the policy is enabled and the
frame carries a road structure with at least one road polygon, junction
polygon or boundary element, every object failing `IsObjectInRoi` gets zero
velocity and acceleration while objects inside the ROI are untouched; when
the policy is disabled, or the structure is absent or entirely empty, the
collected objects are published unmodified.  Consequently every published
object is either an untouched pre-policy object or has zero velocity and
acceleration. -/
theorem track_roi_policy (cb : Collab) (st : EngineState)
    (frame : LidarFrame) :
    ((Track cb st frame).2.1.tracked_objects =
      (match frame.hdmap_struct with
      | none => (trackCore cb st frame).2.tracked_objects
      | some roi =>
        if !st.set_static_outside_hdmap_ ||
            (roi.road_polygons.isEmpty && roi.junction_polygons.isEmpty &&
              roi.road_boundary.isEmpty) then
          (trackCore cb st frame).2.tracked_objects
        else
          (trackCore cb st frame).2.tracked_objects.map
            (fun ob =>
              if cb.isObjectInRoi roi ob then ob
              else { ob with velocity := Vec3.zero,
                             acceleration := Vec3.zero }))) ∧
      ∀ ob ∈ (Track cb st frame).2.1.tracked_objects,
        ob ∈ (trackCore cb st frame).2.tracked_objects ∨
          (ob.velocity = Vec3.zero ∧ ob.acceleration = Vec3.zero) := by
  have h1 : (Track cb st frame).2.1.tracked_objects =
      (match frame.hdmap_struct with
      | none => (trackCore cb st frame).2.tracked_objects
      | some roi =>
        if !st.set_static_outside_hdmap_ ||
            (roi.road_polygons.isEmpty && roi.junction_polygons.isEmpty &&
              roi.road_boundary.isEmpty) then
          (trackCore cb st frame).2.tracked_objects
        else
          (trackCore cb st frame).2.tracked_objects.map
            (fun ob =>
              if cb.isObjectInRoi roi ob then ob
              else { ob with velocity := Vec3.zero,
                             acceleration := Vec3.zero })) := by
    simp only [Track, applyRoiPolicy, trackCore_frame_hdmap,
      trackCore_set_static]
    cases hh : frame.hdmap_struct with
    | none => rfl
    | some roi =>
      simp only
      split
      · rfl
      · rfl
  refine ⟨h1, ?_⟩
  intro ob hob
  rw [h1] at hob
  cases hh : frame.hdmap_struct with
  | none =>
    rw [hh] at hob
    exact Or.inl hob
  | some roi =>
    rw [hh] at hob
    simp only at hob
    by_cases hc : (!st.set_static_outside_hdmap_ ||
        (roi.road_polygons.isEmpty && roi.junction_polygons.isEmpty &&
          roi.road_boundary.isEmpty)) = true
    · rw [if_pos hc] at hob
      exact Or.inl hob
    · rw [if_neg hc] at hob
      obtain ⟨pre, hpre, hmap⟩ := List.mem_map.mp hob
      by_cases hin : cb.isObjectInRoi roi pre
      · rw [if_pos hin] at hmap
        exact Or.inl (hmap ▸ hpre)
      · rw [if_neg hin] at hmap
        right
        rw [← hmap]
        exact ⟨rfl, rfl⟩

/-- Witness for C6 at the concrete fixtures (non-empty road structure,
policy enabled). -/
theorem track_roi_policy_witness :
    ((Track collabW stW frameW).2.1.tracked_objects =
      (match frameW.hdmap_struct with
      | none => (trackCore collabW stW frameW).2.tracked_objects
      | some roi =>
        if !stW.set_static_outside_hdmap_ ||
            (roi.road_polygons.isEmpty && roi.junction_polygons.isEmpty &&
              roi.road_boundary.isEmpty) then
          (trackCore collabW stW frameW).2.tracked_objects
        else
          (trackCore collabW stW frameW).2.tracked_objects.map
            (fun ob =>
              if collabW.isObjectInRoi roi ob then ob
              else { ob with velocity := Vec3.zero,
                             acceleration := Vec3.zero }))) ∧
      ∀ ob ∈ (Track collabW stW frameW).2.1.tracked_objects,
        ob ∈ (trackCore collabW stW frameW).2.tracked_objects ∨
          (ob.velocity = Vec3.zero ∧ ob.acceleration = Vec3.zero) :=
  track_roi_policy collabW stW frameW
